import Mathlib

/-!
# Outbound adapters and provider fetcher of clash: a shallow embedding

Sources embedded here:

* `adapters/outbound/vless.go`  (`Vless.StreamConn`, `Vless.DialContext`, `Vless.DialUDP`, `NewVless`)
* `adapter/outbound/reject.go`  (`Reject`, `NopConn`, `NewReject`, `NewRejectDrop`)
* `adapters/provider/fetcher.go` (`fetcher.Initial`, the head of `fetcher.pullLoop`, `safeWrite`,
  `newFetcher`)

Conventions.

* A Go `error` value is `Option GoError` (`none` is the nil error); a Go function returning
  `(T, error)` returns a pair, exactly as in Go.
* Nil-able interface values (`net.Conn`, `C.Conn`, `C.PacketConn`) have an explicit `nil`
  constructor.
* Calls that leave the translated files (the dialer, the TLS handshake, the WebSocket
  layer, the protocol client, the resolver, the file system, the Go standard library)
  are fields of an environment record; every such call is also appended to a trace of
  `Event`s, so that "was never called" and "was called once" are statements about the trace.
* State reached through a pointer (`*C.Metadata`, `*fetcher`) is returned next to the result.
-/

namespace Clash

/-! ## Go values -/

/-- A non-nil Go `error`; `msg` is what its `Error()` method returns. -/
structure GoError where
  msg : String
deriving DecidableEq, Repr

/-- Go `errors.New`. -/
def errorsNew (text : String) : GoError := ⟨text⟩

/-- Go `io.EOF`. -/
def ioEOF : GoError := errorsNew "EOF"

/-- Go `time.Duration`: a count of nanoseconds. -/
abbrev Duration := Int

/-- Go `time.Second`. -/
def timeSecond : Duration := 1000000000

/-- Go `time.Time`, as nanoseconds on some clock. -/
abbrev Time := Int

/-- Go `[]byte`. -/
abbrev Bytes := List Nat

/-- Go `net.IP`. -/
abbrev IP := List Nat

/-- Handle of the shared `tls.ClientSessionCache`. -/
structure SessionCache where
  handle : Nat
deriving DecidableEq, Repr

/-- The fields of `tls.Config` that `Vless.StreamConn` sets. -/
structure TLSConfig where
  ServerName : String
  InsecureSkipVerify : Bool
  ClientSessionCache : Option SessionCache
deriving DecidableEq, Repr

/-- Go `http.Header` (`map[string][]string`) as an association list. -/
abbrev Header := List (String × List String)

/-- Map update `h[key] = append(h[key], value)`. -/
def Header.appendAt : Header → String → String → Header
  | [], key, value => [(key, [value])]
  | (k, vs) :: rest, key, value =>
    if k = key then (k, vs ++ [value]) :: rest
    else (k, vs) :: Header.appendAt rest key value

/-- Map read `h[key]` (the nil slice when the key is absent). -/
def Header.lookupKey : Header → String → List String
  | [], _ => []
  | (k, vs) :: rest, key => if k = key then vs else Header.lookupKey rest key

/-- Go `http.Header.Add`: the key is canonicalised, then the value is appended under it. -/
def Header.Add (canonical : String → String) (h : Header) (key value : String) : Header :=
  Header.appendAt h (canonical key) value

/-- Go `http.Header.Values`: the values stored under the canonicalised key. -/
def Header.Values (canonical : String → String) (h : Header) (key : String) : List String :=
  Header.lookupKey h (canonical key)

/-- The fields of `vmess.WebsocketConfig` that `Vless.StreamConn` sets
(zero values are the Go zero values). -/
structure WebsocketConfig where
  Host : String := ""
  Port : String := ""
  Path : String := ""
  Headers : Header := []
  TLS : Bool := false
  SkipCertVerify : Bool := false
  ServerName : String := ""
  SessionCache : Option SessionCache := none
deriving DecidableEq, Repr

/-- The synthetic connection of `reject.go`. -/
structure NopConn where
  duration : Duration
deriving DecidableEq, Repr

/-- A Go `net.Conn` interface value. -/
inductive NetConn where
  /-- the nil interface value -/
  | nil
  /-- a socket produced by the dialer -/
  | socket (id : Nat)
  /-- the value `tls.Client(c, config)` -/
  | tlsClient (c : NetConn) (config : TLSConfig)
  /-- a connection produced by a layer outside these files -/
  | layered (id : Nat)
  /-- a pointer to a `NopConn` -/
  | nop (rw : NopConn)
deriving DecidableEq, Repr

/-- Go `context.Context`. -/
inductive Context where
  | Background
  | caller (id : Nat)
  | WithTimeout (parent : Context) (timeout : Duration)
deriving DecidableEq, Repr

/-- The fields of `C.Metadata` the adapters touch. -/
structure Metadata where
  Host : String
  DstIP : Option IP
  DstPort : String
deriving DecidableEq, Repr

/-- Handle of a `*vless.Client`. -/
structure Client where
  handle : Nat
deriving DecidableEq, Repr

/-- Handle of the `*vmess.DstAddr` computed by `parseVmessAddr`. -/
structure DstAddr where
  handle : Nat
deriving DecidableEq, Repr

/-- Handle of a `*net.UDPAddr`. -/
structure UDPAddr where
  handle : Nat
deriving DecidableEq, Repr

/-- The adapter kinds of `C.AdapterType` used in these files. -/
inductive AdapterType where
  | Reject
  | RejectDrop
  | Vless
deriving DecidableEq, Repr

/-- The struct `Base` shared by all adapters. -/
structure Base where
  name : String
  addr : String := ""
  tp : AdapterType
  udp : Bool
deriving DecidableEq, Repr

/-- A Go `C.Conn` interface value.

Modelled from the spec: `NewConn` and its `conn` struct are declared outside the translated
files; the spec's Connection Envelope "wraps a raw transport connection together with the
adapter that produced it ... no behavior beyond pass-through". -/
inductive CConn where
  /-- the nil interface value -/
  | nil
  /-- the envelope around `inner`, produced by the adapter `adapter` -/
  | envelope (inner : NetConn) (adapter : Base)
deriving DecidableEq, Repr

/-- Modelled from the spec: `NewConn` (declared outside the translated files) builds the
Connection Envelope around the connection it is given, whatever that connection is. -/
def NewConn (c : NetConn) (a : Base) : CConn := CConn.envelope c a

/-- The struct `vmessPacketConn`. -/
structure vmessPacketConn where
  Conn : NetConn
  rAddr : UDPAddr
deriving DecidableEq, Repr

/-- A Go `C.PacketConn` interface value.

Modelled from the spec: `newPacketConn` is declared outside the translated files; it wraps
the packet façade together with the adapter, like `NewConn`. -/
inductive PacketConn where
  | nil
  | envelope (inner : vmessPacketConn) (adapter : Base)
deriving DecidableEq, Repr

/-- Modelled from the spec: `newPacketConn`, the packet-channel envelope constructor. -/
def newPacketConn (pc : vmessPacketConn) (a : Base) : PacketConn := PacketConn.envelope pc a

/-- One call that leaves the translated files. -/
inductive Event where
  | ResolveIP (host : String)
  | Dial (ctx : Context) (network address : String)
  | tcpKeepAlive (c : NetConn)
  | Handshake (tlsConn : NetConn)
  | StreamWebsocketConn (c : NetConn) (config : WebsocketConfig)
  | ClientStreamConn (client : Option Client) (c : NetConn) (dst : DstAddr)
  | timeAfter (d : Duration)
deriving DecidableEq, Repr

/-- The event is a dial. -/
def Event.isDial : Event → Bool
  | .Dial _ _ _ => true
  | _ => false

/-- The event is a TLS handshake started by the adapter itself. -/
def Event.isHandshake : Event → Bool
  | .Handshake _ => true
  | _ => false

/-- The event is a call of the WebSocket layer. -/
def Event.isWebsocket : Event → Bool
  | .StreamWebsocketConn _ _ => true
  | _ => false

/-- The event is a call of the protocol handshake client. -/
def Event.isClientStreamConn : Event → Bool
  | .ClientStreamConn _ _ _ => true
  | _ => false

/-- The event is a timer wait. -/
def Event.isStall : Event → Bool
  | .timeAfter _ => true
  | _ => false

/-- Collaborators of `vless.go` that live outside the translated files. -/
structure Env where
  /-- Go `net.SplitHostPort` -/
  SplitHostPort : String → String × String × Option GoError
  /-- Go `net.JoinHostPort` -/
  JoinHostPort : String → String → String
  /-- Go `strconv.Itoa` -/
  Itoa : Int → String
  /-- Go `textproto.CanonicalMIMEHeaderKey`, applied by `http.Header.Add` -/
  CanonicalMIMEHeaderKey : String → String
  /-- Go `getClientSessionCache()` -/
  getClientSessionCache : SessionCache
  /-- Go `(*tls.Conn).Handshake` on a `tls.Client` value -/
  Handshake : NetConn → Option GoError
  /-- Go `vmess.StreamWebsocketConn` -/
  StreamWebsocketConn : NetConn → WebsocketConfig → NetConn × Option GoError
  /-- Go `vless.NewClient` -/
  NewClient : String → Option Client × Option GoError
  /-- Go `(*vless.Client).StreamConn` -/
  ClientStreamConn : Option Client → NetConn → DstAddr → NetConn × Option GoError
  /-- Go `parseVmessAddr` -/
  parseVmessAddr : Metadata → DstAddr
  /-- Go `dialer.DialContext` -/
  DialContext : Context → String → String → NetConn × Option GoError
  /-- Go `resolver.ResolveIP` -/
  ResolveIP : String → Option IP × Option GoError
  /-- Go `(*C.Metadata).Resolved` -/
  Resolved : Metadata → Bool
  /-- Go `(*C.Metadata).UDPAddr` -/
  UDPAddr : Metadata → UDPAddr
  /-- the constant `tcpTimeout` -/
  tcpTimeout : Duration

/-! ## vless.go -/

/-- The struct `VlessOption`; the map `WSHeaders` is listed in the order the `range`
loop visits it. -/
structure VlessOption where
  Name : String
  Server : String
  Port : Int
  UUID : String
  UDP : Bool := false
  TLS : Bool := false
  Network : String := ""
  WSPath : String := ""
  WSHeaders : List (String × String) := []
  SkipCertVerify : Bool := false
  ServerName : String := ""
deriving DecidableEq, Repr

/-- The struct `Vless`. -/
structure Vless extends Base where
  client : Option Client
  option : VlessOption
deriving DecidableEq, Repr

/-- The `wsOpts` value that the `"ws"` branch of `StreamConn` builds (lines 43-63). -/
def Vless.wsOpts (env : Env) (v : Vless) : WebsocketConfig :=
  let hp := env.SplitHostPort v.addr
  let wsOpts : WebsocketConfig := { Host := hp.1, Port := hp.2.1, Path := v.option.WSPath }
  let wsOpts : WebsocketConfig :=
    if v.option.WSHeaders.length ≠ 0 then
      { wsOpts with
        Headers := v.option.WSHeaders.foldl
          (fun header kv => Header.Add env.CanonicalMIMEHeaderKey header kv.1 kv.2) [] }
    else wsOpts
  if v.option.TLS then
    { wsOpts with
      TLS := true
      SessionCache := some env.getClientSessionCache
      SkipCertVerify := v.option.SkipCertVerify
      ServerName := v.option.ServerName }
  else wsOpts

/-- The `tlsConfig` value that the default branch of `StreamConn` builds (lines 68-76). -/
def Vless.tlsConfig (env : Env) (v : Vless) : TLSConfig :=
  let host := (env.SplitHostPort v.addr).1
  let tlsConfig : TLSConfig :=
    { ServerName := host
      InsecureSkipVerify := v.option.SkipCertVerify
      ClientSessionCache := some env.getClientSessionCache }
  if v.option.ServerName ≠ "" then { tlsConfig with ServerName := v.option.ServerName }
  else tlsConfig

/-- The method `(*Vless).StreamConn`: the returned pair and the calls made. -/
def Vless.StreamConn (env : Env) (v : Vless) (c : NetConn) (metadata : Metadata) :
    (NetConn × Option GoError) × List Event :=
  if v.option.Network = "ws" then
    let wsOpts := v.wsOpts env
    let r := env.StreamWebsocketConn c wsOpts
    match r.2 with
    | some err => ((NetConn.nil, some err), [Event.StreamWebsocketConn c wsOpts])
    | none =>
      let dst := env.parseVmessAddr metadata
      (env.ClientStreamConn v.client r.1 dst,
        [Event.StreamWebsocketConn c wsOpts, Event.ClientStreamConn v.client r.1 dst])
  else if v.option.TLS then
    let tlsConn := NetConn.tlsClient c (v.tlsConfig env)
    match env.Handshake tlsConn with
    | some err => ((NetConn.nil, some err), [Event.Handshake tlsConn])
    | none =>
      let dst := env.parseVmessAddr metadata
      (env.ClientStreamConn v.client tlsConn dst,
        [Event.Handshake tlsConn, Event.ClientStreamConn v.client tlsConn dst])
  else
    let dst := env.parseVmessAddr metadata
    (env.ClientStreamConn v.client c dst, [Event.ClientStreamConn v.client c dst])

/-- The method `(*Vless).DialContext`: the returned pair and the calls made. -/
def Vless.DialContext (env : Env) (v : Vless) (ctx : Context) (metadata : Metadata) :
    (CConn × Option GoError) × List Event :=
  let d := env.DialContext ctx "tcp" v.addr
  match d.2 with
  | some err =>
    ((CConn.nil, some (errorsNew (v.addr ++ " connect error: " ++ err.msg))),
      [Event.Dial ctx "tcp" v.addr])
  | none =>
    let s := v.StreamConn env d.1 metadata
    ((NewConn s.1.1 v.toBase, s.1.2),
      [Event.Dial ctx "tcp" v.addr, Event.tcpKeepAlive d.1] ++ s.2)

/-- The method `(*Vless).DialUDP`: the returned pair, the metadata after the call (it is
passed by pointer) and the calls made. -/
def Vless.DialUDP (env : Env) (v : Vless) (metadata : Metadata) :
    ((PacketConn × Option GoError) × Metadata) × List Event :=
  let resolve : Option (Metadata × List Event) :=
    if !env.Resolved metadata then
      let r := env.ResolveIP metadata.Host
      match r.2 with
      | some _ => none
      | none => some ({ metadata with DstIP := r.1 }, [Event.ResolveIP metadata.Host])
    else some (metadata, [])
  match resolve with
  | none =>
    (((PacketConn.nil, some (errorsNew "can't resolve ip")), metadata),
      [Event.ResolveIP metadata.Host])
  | some (metadata, tr) =>
    let ctx := Context.WithTimeout Context.Background env.tcpTimeout
    let d := env.DialContext ctx "tcp" v.addr
    match d.2 with
    | some err =>
      (((PacketConn.nil, some (errorsNew (v.addr ++ " connect error: " ++ err.msg))), metadata),
        tr ++ [Event.Dial ctx "tcp" v.addr])
    | none =>
      let s := v.StreamConn env d.1 metadata
      let tr := tr ++ [Event.Dial ctx "tcp" v.addr, Event.tcpKeepAlive d.1] ++ s.2
      match s.1.2 with
      | some err =>
        (((PacketConn.nil, some (errorsNew ("new vless client error: " ++ err.msg))), metadata), tr)
      | none =>
        (((newPacketConn { Conn := s.1.1, rAddr := env.UDPAddr metadata } v.toBase, none),
          metadata), tr)

/-- The constructor `NewVless`; a nil `*Vless` is `none`. -/
def NewVless (env : Env) (option : VlessOption) : Option Vless × Option GoError :=
  let r := env.NewClient option.UUID
  match r.2 with
  | some err => (none, some err)
  | none =>
    (some
      { name := option.Name
        addr := env.JoinHostPort option.Server (env.Itoa option.Port)
        tp := AdapterType.Vless
        udp := true
        client := r.1
        option := option }, none)

/-! ## reject.go -/

/-- The constant `DropDuration`. -/
def DropDuration : Duration := 60 * timeSecond

/-- The struct `Reject`. -/
structure Reject extends Base where
  duration : Duration := 0
deriving DecidableEq, Repr

/-- The method `(*Reject).DialContext`: the returned pair and the calls made. -/
def Reject.DialContext (r : Reject) (_ctx : Context) (_metadata : Metadata) :
    (CConn × Option GoError) × List Event :=
  ((NewConn (NetConn.nop { duration := r.duration }) r.toBase, none), [])

/-- The method `(*Reject).DialUDP`: the returned pair and the calls made. -/
def Reject.DialUDP (_r : Reject) (_metadata : Metadata) :
    (PacketConn × Option GoError) × List Event :=
  ((PacketConn.nil, some (errorsNew "match reject rule")), [])

/-- The constructor `NewReject`; `duration` keeps its zero value. -/
def NewReject : Reject :=
  { name := "REJECT"
    tp := AdapterType.Reject
    udp := true }

/-- The constructor `NewRejectDrop`. -/
def NewRejectDrop : Reject :=
  { name := "REJECT-DROP"
    tp := AdapterType.RejectDrop
    udp := true
    duration := DropDuration }

/-- The method `(*NopConn).Read`: byte count, error, and the calls made. -/
def NopConn.Read (_rw : NopConn) (_b : Bytes) : (Int × Option GoError) × List Event :=
  ((0, some ioEOF), [])

/-- The method `(*NopConn).Write`: the receive on `time.After(rw.duration)` is recorded
as a `timeAfter` event carrying the duration waited for. -/
def NopConn.Write (rw : NopConn) (_b : Bytes) : (Int × Option GoError) × List Event :=
  ((0, some ioEOF), [Event.timeAfter rw.duration])

/-- Method dispatch of `Read` on a `net.Conn` value; `none` for connections whose `Read`
is implemented outside the translated files. -/
def NetConn.Read : NetConn → Bytes → Option ((Int × Option GoError) × List Event)
  | NetConn.nop rw, b => some (rw.Read b)
  | _, _ => none

/-- Method dispatch of `Write` on a `net.Conn` value; `none` for connections whose `Write`
is implemented outside the translated files. -/
def NetConn.Write : NetConn → Bytes → Option ((Int × Option GoError) × List Event)
  | NetConn.nop rw, b => some (rw.Write b)
  | _, _ => none

/-- Modelled from the spec: the Connection Envelope (declared outside the translated files)
has "no behavior beyond pass-through", so `Read` on it is `Read` on the wrapped connection. -/
def CConn.Read : CConn → Bytes → Option ((Int × Option GoError) × List Event)
  | CConn.envelope inner _, b => inner.Read b
  | CConn.nil, _ => none

/-- Modelled from the spec: `Write` on the Connection Envelope is `Write` on the wrapped
connection. -/
def CConn.Write : CConn → Bytes → Option ((Int × Option GoError) × List Event)
  | CConn.envelope inner _, b => inner.Write b
  | CConn.nil, _ => none

/-! ## fetcher.go -/

/-- Go `interface{}` holding a parsed provider payload; `none` is nil. -/
abbrev Any := Option Nat

/-- The `VehicleType` enumeration; only `File` is named in `fetcher.go`. -/
inductive VehicleType where
  | File
  | HTTP
  | Compatible
deriving DecidableEq, Repr

/-- A value of the `Vehicle` interface: what its three methods return. -/
structure Vehicle where
  Read : Bytes × Option GoError
  Path : String
  /-- the method `Type()` -/
  Typ : VehicleType

/-- The file-system and library calls made by `fetcher.go`. -/
structure FsEnv where
  /-- Go `os.Stat`: the `ModTime()` of the returned info, and the error -/
  Stat : String → Time × Option GoError
  /-- Go `ioutil.ReadFile` -/
  ReadFile : String → Bytes × Option GoError
  /-- Go `filepath.Dir` -/
  Dir : String → String
  /-- Go `os.IsNotExist` -/
  IsNotExist : Option GoError → Bool
  /-- Go `os.MkdirAll` -/
  MkdirAll : String → Nat → Option GoError
  /-- Go `ioutil.WriteFile` -/
  WriteFile : String → Bytes → Nat → Option GoError
  /-- Go `md5.Sum` -/
  md5Sum : Bytes → List Nat

/-- The variable `fileMode` (octal 0666). -/
def fileMode : Nat := 438

/-- The variable `dirMode` (octal 0755). -/
def dirMode : Nat := 493

/-- The struct `fetcher`; the pointers `tryUpdateAt` and `updatedAt` are nil when `none`,
`signal` is the number of items in the channel and `onUpdate` a handle of the callback. -/
structure fetcher where
  name : String
  vehicle : Vehicle
  tryUpdateAt : Option Time := none
  updatedAt : Option Time := none
  interval : Duration
  signal : Nat := 0
  hash : List Nat := List.replicate 16 0
  parser : Bytes → Any × Option GoError
  closed : Nat := 0
  onUpdate : Option Nat

/-- The function `safeWrite`. -/
def safeWrite (fs : FsEnv) (path : String) (buf : Bytes) : Option GoError :=
  let dir := fs.Dir path
  if fs.IsNotExist (fs.Stat dir).2 then
    match fs.MkdirAll dir dirMode with
    | some err => some err
    | none => fs.WriteFile path buf fileMode
  else fs.WriteFile path buf fileMode

/-- The constructor `newFetcher`. -/
def newFetcher (name : String) (interval : Duration) (vehicle : Vehicle)
    (parser : Bytes → Any × Option GoError) (onUpdate : Option Nat) : fetcher :=
  { name := name
    interval := interval
    vehicle := vehicle
    parser := parser
    signal := 0
    onUpdate := onUpdate }

/-- What `(*fetcher).Initial` yields: the returned pair, the fetcher after the call, and
whether `go f.pullLoop()` was executed. -/
structure InitialOutcome where
  proxies : Any
  err : Option GoError
  f : fetcher
  pullLoop : Bool

/-- Lines 83-96 of `(*fetcher).Initial`: the write-back, the hash and the pull loop. -/
def fetcher.initialStore (fs : FsEnv) (f : fetcher) (buf : Bytes) (proxies : Any)
    (isLocal : Bool) : InitialOutcome :=
  let werr : Option GoError :=
    if f.vehicle.Typ ≠ VehicleType.File ∧ isLocal = false then safeWrite fs f.vehicle.Path buf
    else none
  match werr with
  | some err => { proxies := none, err := some err, f := f, pullLoop := false }
  | none =>
    let f := { f with hash := fs.md5Sum buf }
    { proxies := proxies, err := none, f := f, pullLoop := decide (f.interval > 0) }

/-- The method `(*fetcher).Initial`. -/
def fetcher.Initial (fs : FsEnv) (f : fetcher) : InitialOutcome :=
  let stat := fs.Stat f.vehicle.Path
  -- lines 49-57
  let start : (Bytes × Option GoError) × Bool × fetcher :=
    match stat.2 with
    | none =>
      (fs.ReadFile f.vehicle.Path, true,
        { f with updatedAt := some stat.1, tryUpdateAt := some stat.1 })
    | some _ => (f.vehicle.Read, false, f)
  let buf := start.1.1
  let isLocal := start.2.1
  let f := start.2.2
  match start.1.2 with
  | some err => { proxies := none, err := some err, f := f, pullLoop := false }
  | none =>
    let parsed := f.parser buf
    match parsed.2 with
    | none => f.initialStore fs buf parsed.1 isLocal
    | some err =>
      if isLocal = false then { proxies := none, err := some err, f := f, pullLoop := false }
      else
        -- parse local file error, fallback to remote
        let remote := f.vehicle.Read
        match remote.2 with
        | some err => { proxies := none, err := some err, f := f, pullLoop := false }
        | none =>
          let parsed := f.parser remote.1
          match parsed.2 with
          | some err => { proxies := none, err := some err, f := f, pullLoop := false }
          | none => f.initialStore fs remote.1 parsed.1 false

/-- How the first pass through the head of the loop in `(*fetcher).pullLoop` ends. -/
inductive LoopHead where
  /-- the loop condition `closed == 0` is false -/
  | exit
  /-- the run-time panic of evaluating `*f.tryUpdateAt` on a nil pointer -/
  | nilDereference
  /-- the call `timer.Reset(offset)` is reached with this offset -/
  | reset (offset : Duration)
deriving DecidableEq, Repr

/-- Lines 155-162 of `(*fetcher).pullLoop`, first pass, at clock reading `now`
(`time.Since(t)` is `now - t`). -/
def fetcher.pullLoop (f : fetcher) (now : Time) : LoopHead :=
  if f.closed = 0 then
    match f.tryUpdateAt with
    | none => LoopHead.nilDereference
    | some t =>
      let offset := f.interval - (now - t)
      LoopHead.reset (if offset < 0 then timeSecond * 1 else offset)
  else LoopHead.exit

/-! ## Test doubles -/

/-- A collaborator set for concrete runs: the dial, the TLS handshake, the WebSocket
layer, the protocol handshake, the resolver and the client constructor each fail with the
given error, when one is given. Addresses are split at the first colon. -/
def stubEnv (dialErr tlsErr wsErr clientErr resolveErr newClientErr : Option GoError) : Env :=
  { SplitHostPort := fun s =>
      (String.mk (s.data.takeWhile (fun ch => ch ≠ ':')),
        String.mk ((s.data.dropWhile (fun ch => ch ≠ ':')).drop 1), none)
    JoinHostPort := fun host port => host ++ ":" ++ port
    Itoa := fun n => toString n
    CanonicalMIMEHeaderKey := fun s => s.capitalize
    getClientSessionCache := { handle := 0 }
    Handshake := fun _ => tlsErr
    StreamWebsocketConn := fun _ _ =>
      match wsErr with
      | some e => (NetConn.nil, some e)
      | none => (NetConn.layered 1, none)
    NewClient := fun _ =>
      match newClientErr with
      | some e => (none, some e)
      | none => (some { handle := 7 }, none)
    ClientStreamConn := fun _ _ _ =>
      match clientErr with
      | some e => (NetConn.nil, some e)
      | none => (NetConn.layered 2, none)
    parseVmessAddr := fun _ => { handle := 0 }
    DialContext := fun _ _ _ =>
      match dialErr with
      | some e => (NetConn.nil, some e)
      | none => (NetConn.socket 0, none)
    ResolveIP := fun _ =>
      match resolveErr with
      | some e => (none, some e)
      | none => (some [10, 0, 0, 1], none)
    Resolved := fun m => m.DstIP.isSome
    UDPAddr := fun _ => { handle := 0 }
    tcpTimeout := 5 * timeSecond }

/-- A raw-mode adapter with TLS enabled. -/
def tlsAdapter : Vless :=
  { name := "v"
    addr := "example.com:443"
    tp := AdapterType.Vless
    udp := true
    client := some { handle := 7 }
    option := { Name := "v", Server := "example.com", Port := 443, UUID := "u", TLS := true } }

/-- A WebSocket-mode adapter with TLS enabled and two configured headers. -/
def wsAdapter : Vless :=
  { name := "w"
    addr := "example.com:443"
    tp := AdapterType.Vless
    udp := true
    client := some { handle := 7 }
    option :=
      { Name := "w", Server := "example.com", Port := 443, UUID := "u", TLS := true,
        Network := "ws", WSPath := "/ray", WSHeaders := [("host", "cdn.test"), ("x-a", "1")],
        SkipCertVerify := true, ServerName := "sni.test" } }

/-- A destination that still has to be resolved. -/
def hostMetadata : Metadata := { Host := "dst.test", DstIP := none, DstPort := "53" }

/-- A file system without any file, whose writes succeed. -/
def emptyFs : FsEnv :=
  { Stat := fun _ => (0, some (errorsNew "no such file or directory"))
    ReadFile := fun _ => ([], some (errorsNew "no such file or directory"))
    Dir := fun p => p
    IsNotExist := fun e => e.isSome
    MkdirAll := fun _ _ => none
    WriteFile := fun _ _ _ => none
    md5Sum := fun _ => List.replicate 16 0 }

/-- A remote vehicle whose payload is readable. -/
def remoteVehicle : Vehicle :=
  { Read := ([1, 2, 3], none)
    Path := "providers/p.yaml"
    Typ := VehicleType.HTTP }

end Clash

namespace Clash

/-! ## Lemmas on headers -/

theorem Header.mem_at_appendAt_self (h : Header) (key value : String) :
    value ∈ Header.lookupKey (Header.appendAt h key value) key := by
  induction h with
  | nil => simp [Header.appendAt, Header.lookupKey]
  | cons p rest ih =>
    obtain ⟨k, vs⟩ := p
    by_cases hk : k = key
    · simp [Header.appendAt, Header.lookupKey, hk]
    · simp [Header.appendAt, Header.lookupKey, hk, ih]

theorem Header.mem_at_appendAt_of_mem (h : Header) (key key2 value value2 : String)
    (hm : value ∈ Header.lookupKey h key) :
    value ∈ Header.lookupKey (Header.appendAt h key2 value2) key := by
  induction h with
  | nil => simp [Header.lookupKey] at hm
  | cons p rest ih =>
    obtain ⟨k, vs⟩ := p
    unfold Header.lookupKey at hm
    unfold Header.appendAt
    by_cases hk2 : k = key2 <;> by_cases hk : k = key
    · rw [if_pos hk] at hm
      rw [if_pos hk2]
      unfold Header.lookupKey
      rw [if_pos hk]
      exact List.mem_append_left _ hm
    · rw [if_neg hk] at hm
      rw [if_pos hk2]
      unfold Header.lookupKey
      rw [if_neg hk]
      exact hm
    · rw [if_pos hk] at hm
      rw [if_neg hk2]
      unfold Header.lookupKey
      rw [if_pos hk]
      exact hm
    · rw [if_neg hk] at hm
      rw [if_neg hk2]
      unfold Header.lookupKey
      rw [if_neg hk]
      exact ih hm

theorem Header.foldl_Add_keeps (canonical : String → String) (l : List (String × String))
    (acc : Header) (key value : String) (hm : value ∈ Header.lookupKey acc key) :
    value ∈ Header.lookupKey
      (l.foldl (fun header kv => Header.Add canonical header kv.1 kv.2) acc) key := by
  induction l generalizing acc with
  | nil => simpa using hm
  | cons kv rest ih =>
    simp only [List.foldl_cons]
    exact ih _ (Header.mem_at_appendAt_of_mem acc key _ value _ hm)

theorem Header.foldl_Add_mem (canonical : String → String) (l : List (String × String))
    (acc : Header) (kv : String × String) (hkv : kv ∈ l) :
    kv.2 ∈ Header.Values canonical
      (l.foldl (fun header kv => Header.Add canonical header kv.1 kv.2) acc) kv.1 := by
  induction l generalizing acc with
  | nil => simp at hkv
  | cons p rest ih =>
    simp only [List.foldl_cons]
    rcases List.mem_cons.mp hkv with h | h
    · subst h
      exact Header.foldl_Add_keeps canonical rest _ _ _
        (Header.mem_at_appendAt_self acc (canonical kv.1) kv.2)
    · exact ih _ h

/-! ## Lemmas on `StreamConn` -/

theorem Vless.StreamConn_ws (env : Env) (v : Vless) (c : NetConn) (md : Metadata)
    (hNet : v.option.Network = "ws") :
    v.StreamConn env c md =
      match (env.StreamWebsocketConn c (v.wsOpts env)).2 with
      | some err => ((NetConn.nil, some err), [Event.StreamWebsocketConn c (v.wsOpts env)])
      | none =>
        (env.ClientStreamConn v.client (env.StreamWebsocketConn c (v.wsOpts env)).1
            (env.parseVmessAddr md),
          [Event.StreamWebsocketConn c (v.wsOpts env),
            Event.ClientStreamConn v.client (env.StreamWebsocketConn c (v.wsOpts env)).1
              (env.parseVmessAddr md)]) := by
  simp [Vless.StreamConn, hNet]

theorem Vless.StreamConn_tls (env : Env) (v : Vless) (c : NetConn) (md : Metadata)
    (hNet : v.option.Network ≠ "ws") (hTLS : v.option.TLS = true) :
    v.StreamConn env c md =
      match env.Handshake (NetConn.tlsClient c (v.tlsConfig env)) with
      | some err =>
        ((NetConn.nil, some err), [Event.Handshake (NetConn.tlsClient c (v.tlsConfig env))])
      | none =>
        (env.ClientStreamConn v.client (NetConn.tlsClient c (v.tlsConfig env))
            (env.parseVmessAddr md),
          [Event.Handshake (NetConn.tlsClient c (v.tlsConfig env)),
            Event.ClientStreamConn v.client (NetConn.tlsClient c (v.tlsConfig env))
              (env.parseVmessAddr md)]) := by
  simp [Vless.StreamConn, hNet, hTLS]

/-- Every `DialContext` whose dial succeeded returns the envelope built by `NewConn` around
whatever `StreamConn` returned, next to `StreamConn`'s error: the connection value is never
nil on this path, also when the error is not nil. -/
theorem Vless.DialContext_after_dial (env : Env) (v : Vless) (ctx : Context) (md : Metadata)
    (hDial : (env.DialContext ctx "tcp" v.addr).2 = none) :
    (v.DialContext env ctx md).1
      = (NewConn (v.StreamConn env (env.DialContext ctx "tcp" v.addr).1 md).1.1 v.toBase,
          (v.StreamConn env (env.DialContext ctx "tcp" v.addr).1 md).1.2) ∧
    (v.DialContext env ctx md).1.1 ≠ CConn.nil := by
  simp [Vless.DialContext, hDial, NewConn]

/-! ## Claims on `vless.go` -/

/-- C1, evaluated on the code: the dial succeeds and the TLS handshake fails with
"bad certificate"; `DialContext` then returns that error together with a connection value
that is not nil, namely the envelope built by `NewConn` around the nil connection that
`StreamConn` returned. -/
theorem Vless.DialContext_envelope_on_handshake_failure :
    (tlsAdapter.DialContext (stubEnv none (some ⟨"bad certificate"⟩) none none none none)
        (Context.caller 0) hostMetadata).1
      = (CConn.envelope NetConn.nil tlsAdapter.toBase, some ⟨"bad certificate"⟩) ∧
    (tlsAdapter.DialContext (stubEnv none (some ⟨"bad certificate"⟩) none none none none)
        (Context.caller 0) hostMetadata).1.1 ≠ CConn.nil ∧
    (tlsAdapter.StreamConn (stubEnv none (some ⟨"bad certificate"⟩) none none none none)
        (NetConn.socket 0) hostMetadata).1 = (NetConn.nil, some ⟨"bad certificate"⟩) := by
  decide

/-- C2: when the transport layer selected by the network mode fails with error `e` (the
WebSocket layer in "ws" mode, the direct TLS client handshake otherwise), `StreamConn`
returns the nil connection with exactly `e`, and no call of the protocol client's
`StreamConn` appears among the calls made. -/
theorem Vless.StreamConn_transport_error (env : Env) (v : Vless) (c : NetConn)
    (md : Metadata) (e : GoError)
    (h : (v.option.Network = "ws" ∧ (env.StreamWebsocketConn c (v.wsOpts env)).2 = some e) ∨
      (v.option.Network ≠ "ws" ∧ v.option.TLS = true ∧
        env.Handshake (NetConn.tlsClient c (v.tlsConfig env)) = some e)) :
    (v.StreamConn env c md).1 = (NetConn.nil, some e) ∧
    (v.StreamConn env c md).2.filter Event.isClientStreamConn = [] := by
  rcases h with ⟨hNet, hFail⟩ | ⟨hNet, hTLS, hFail⟩
  · rw [Vless.StreamConn_ws env v c md hNet, hFail]
    exact ⟨rfl, rfl⟩
  · rw [Vless.StreamConn_tls env v c md hNet hTLS, hFail]
    exact ⟨rfl, rfl⟩

/-- Witness of C2: both modes at a concrete failing layer. -/
theorem Vless.StreamConn_transport_error_witness :
    ((tlsAdapter.StreamConn (stubEnv none (some ⟨"bad certificate"⟩) none none none none)
        (NetConn.socket 0) hostMetadata).1 = (NetConn.nil, some ⟨"bad certificate"⟩) ∧
      (tlsAdapter.StreamConn (stubEnv none (some ⟨"bad certificate"⟩) none none none none)
        (NetConn.socket 0) hostMetadata).2.filter Event.isClientStreamConn = []) ∧
    ((wsAdapter.StreamConn (stubEnv none none (some ⟨"bad status"⟩) none none none)
        (NetConn.socket 0) hostMetadata).1 = (NetConn.nil, some ⟨"bad status"⟩) ∧
      (wsAdapter.StreamConn (stubEnv none none (some ⟨"bad status"⟩) none none none)
        (NetConn.socket 0) hostMetadata).2.filter Event.isClientStreamConn = []) :=
  ⟨Vless.StreamConn_transport_error _ tlsAdapter (NetConn.socket 0) hostMetadata
      ⟨"bad certificate"⟩ (Or.inr ⟨by decide, by decide, by decide⟩),
    Vless.StreamConn_transport_error _ wsAdapter (NetConn.socket 0) hostMetadata
      ⟨"bad status"⟩ (Or.inl ⟨by decide, by decide⟩)⟩

/-- C3: with TLS enabled and a network mode other than "ws", `StreamConn` starts exactly one
TLS handshake, as its first call, on `tls.Client(c, config)` where `config.ServerName` is the
configured override when that is non-empty and otherwise the host part of
`SplitHostPort(v.addr)`, and `config.InsecureSkipVerify` is the configured skip-cert-verify
flag; for an adapter built by `NewVless`, `v.addr` is
`JoinHostPort(option.Server, Itoa(option.Port))` and `v.option` is the given option. -/
theorem Vless.StreamConn_tls_server_name (env : Env) (v : Vless) (c : NetConn) (md : Metadata)
    (hTLS : v.option.TLS = true) (hNet : v.option.Network ≠ "ws") :
    (∃ config : TLSConfig,
      (v.StreamConn env c md).2.head? = some (Event.Handshake (NetConn.tlsClient c config)) ∧
      (v.StreamConn env c md).2.filter Event.isHandshake
        = [Event.Handshake (NetConn.tlsClient c config)] ∧
      config.ServerName
        = (if v.option.ServerName ≠ "" then v.option.ServerName
            else (env.SplitHostPort v.addr).1) ∧
      config.InsecureSkipVerify = v.option.SkipCertVerify) ∧
    (∀ option : VlessOption, (NewVless env option).1 = some v →
      v.addr = env.JoinHostPort option.Server (env.Itoa option.Port) ∧ v.option = option) := by
  constructor
  · refine ⟨v.tlsConfig env, ?_, ?_, ?_, ?_⟩
    · rw [Vless.StreamConn_tls env v c md hNet hTLS]
      cases env.Handshake (NetConn.tlsClient c (v.tlsConfig env)) <;> rfl
    · rw [Vless.StreamConn_tls env v c md hNet hTLS]
      cases env.Handshake (NetConn.tlsClient c (v.tlsConfig env)) <;> rfl
    · unfold Vless.tlsConfig
      by_cases hName : v.option.ServerName = "" <;> simp [hName]
    · unfold Vless.tlsConfig
      by_cases hName : v.option.ServerName = "" <;> simp [hName]
  · intro option hNew
    unfold NewVless at hNew
    cases hErr : (env.NewClient option.UUID).2 with
    | some err => simp [hErr] at hNew
    | none =>
      simp only [hErr, Option.some.injEq] at hNew
      subst hNew
      exact ⟨rfl, rfl⟩

/-- Witness of C3: an adapter built by `NewVless` without a server-name override validates
the certificate against the host of its server address. -/
theorem Vless.StreamConn_tls_server_name_witness :
    (∃ config : TLSConfig,
      (tlsAdapter.StreamConn (stubEnv none none none none none none) (NetConn.socket 0)
          hostMetadata).2.head? = some (Event.Handshake (NetConn.tlsClient (NetConn.socket 0) config)) ∧
      (tlsAdapter.StreamConn (stubEnv none none none none none none) (NetConn.socket 0)
          hostMetadata).2.filter Event.isHandshake
        = [Event.Handshake (NetConn.tlsClient (NetConn.socket 0) config)] ∧
      config.ServerName
        = (if tlsAdapter.option.ServerName ≠ "" then tlsAdapter.option.ServerName
            else ((stubEnv none none none none none none).SplitHostPort tlsAdapter.addr).1) ∧
      config.InsecureSkipVerify = tlsAdapter.option.SkipCertVerify) ∧
    (NewVless (stubEnv none none none none none none) tlsAdapter.option).1 = some tlsAdapter ∧
    ((stubEnv none none none none none none).SplitHostPort tlsAdapter.addr).1 = "example.com" :=
  ⟨(Vless.StreamConn_tls_server_name (stubEnv none none none none none none) tlsAdapter
      (NetConn.socket 0) hostMetadata (by decide) (by decide)).1, by decide, by decide⟩

/-- C4: for metadata that is not resolved, when `ResolveIP` fails for `metadata.Host`,
`DialUDP` returns the nil packet channel with the error "can't resolve ip", leaves the
metadata (its `DstIP` included) as it was, and the only call made is the resolver lookup:
no dial (the count of dial calls is zero), no TLS handshake, no WebSocket call and no
protocol handshake. -/
theorem Vless.DialUDP_resolve_failure (env : Env) (v : Vless) (md : Metadata) (e : GoError)
    (hUnresolved : env.Resolved md = false) (hFail : (env.ResolveIP md.Host).2 = some e) :
    (v.DialUDP env md).1.1 = (PacketConn.nil, some (errorsNew "can't resolve ip")) ∧
    (v.DialUDP env md).1.2 = md ∧
    (v.DialUDP env md).1.2.DstIP = md.DstIP ∧
    (v.DialUDP env md).2 = [Event.ResolveIP md.Host] ∧
    ((v.DialUDP env md).2.filter Event.isDial).length = 0 ∧
    (v.DialUDP env md).2.filter Event.isHandshake = [] ∧
    (v.DialUDP env md).2.filter Event.isWebsocket = [] ∧
    (v.DialUDP env md).2.filter Event.isClientStreamConn = [] := by
  have hRun : v.DialUDP env md
      = (((PacketConn.nil, some (errorsNew "can't resolve ip")), md),
          [Event.ResolveIP md.Host]) := by
    simp [Vless.DialUDP, hUnresolved, hFail]
  rw [hRun]
  exact ⟨rfl, rfl, rfl, rfl, rfl, rfl, rfl, rfl⟩

/-- Witness of C4: a host-only destination and a resolver that finds no address. -/
theorem Vless.DialUDP_resolve_failure_witness :
    (stubEnv none none none none (some ⟨"couldn't find ip"⟩) none).Resolved hostMetadata = false ∧
    (tlsAdapter.DialUDP (stubEnv none none none none (some ⟨"couldn't find ip"⟩) none)
        hostMetadata).1.1 = (PacketConn.nil, some (errorsNew "can't resolve ip")) ∧
    ((tlsAdapter.DialUDP (stubEnv none none none none (some ⟨"couldn't find ip"⟩) none)
        hostMetadata).2.filter Event.isDial).length = 0 :=
  have h := Vless.DialUDP_resolve_failure
    (stubEnv none none none none (some ⟨"couldn't find ip"⟩) none) tlsAdapter hostMetadata
    ⟨"couldn't find ip"⟩ (by decide) (by decide)
  ⟨by decide, h.1, h.2.2.2.2.1⟩

/-! ## Claims on `reject.go` -/

/-- C5: for every tarpit adapter, context and metadata, `DialContext` returns a nil error,
makes no call, and returns a connection on which every `Read` yields 0 bytes and `io.EOF`
with no timer wait, and every `Write` yields 0 bytes and `io.EOF` after one timer wait of
exactly the adapter's duration; that duration is 0 for `NewReject` and
`DropDuration` = 60 s = 60000000000 ns for `NewRejectDrop`. -/
theorem Reject.DialContext_tarpit (r : Reject) (ctx : Context) (md : Metadata) (b : Bytes) :
    (r.DialContext ctx md).1.2 = none ∧
    (r.DialContext ctx md).2 = [] ∧
    (r.DialContext ctx md).1.1 ≠ CConn.nil ∧
    (r.DialContext ctx md).1.1.Read b = some ((0, some ioEOF), []) ∧
    (r.DialContext ctx md).1.1.Write b = some ((0, some ioEOF), [Event.timeAfter r.duration]) ∧
    NewReject.duration = 0 ∧
    (NewReject.DialContext ctx md).1.1.Write b = some ((0, some ioEOF), [Event.timeAfter 0]) ∧
    NewRejectDrop.duration = DropDuration ∧
    DropDuration = 60 * timeSecond ∧
    DropDuration = 60000000000 ∧
    (NewRejectDrop.DialContext ctx md).1.1.Write b
      = some ((0, some ioEOF), [Event.timeAfter 60000000000]) := by
  refine ⟨rfl, rfl, ?_, rfl, rfl, rfl, rfl, rfl, rfl, ?_, ?_⟩
  · simp [Reject.DialContext, NewConn]
  · decide
  · have hd : DropDuration = 60000000000 := by decide
    simp [Reject.DialContext, NewConn, CConn.Write, NetConn.Write, NopConn.Write,
      NewRejectDrop, hd]

/-- C6: for every metadata and every tarpit adapter (so for the ones built by `NewReject`
and `NewRejectDrop`, whatever the stall duration), `DialUDP` returns the nil packet channel
and the error with message "match reject rule", and makes no call at all: no timer wait
and no network operation. -/
theorem Reject.DialUDP_refused (r : Reject) (md : Metadata) :
    (r.DialUDP md).1 = (PacketConn.nil, some (errorsNew "match reject rule")) ∧
    (errorsNew "match reject rule").msg = "match reject rule" ∧
    (r.DialUDP md).2 = [] ∧
    NewReject.DialUDP md = ((PacketConn.nil, some (errorsNew "match reject rule")), []) ∧
    NewRejectDrop.DialUDP md = ((PacketConn.nil, some (errorsNew "match reject rule")), []) ∧
    NewRejectDrop.DialUDP md = NewReject.DialUDP md :=
  ⟨rfl, rfl, rfl, rfl, rfl, rfl⟩

/-! ## Claims on the WebSocket mode, the error messages and the constructor -/

/-- C7: in "ws" mode `StreamConn` starts no TLS handshake of its own and calls the WebSocket
layer exactly once, as its first call (so before the protocol handshake, which is the only
call that may follow); the configuration passed carries the configured path, has `TLS` set
exactly when the TLS option is set (then with the configured skip-verify flag and
server-name override), and for every key/value pair of the configured header mapping its
header set holds that value under that key (`http.Header.Values`). -/
theorem Vless.StreamConn_ws_config (env : Env) (v : Vless) (c : NetConn) (md : Metadata)
    (hNet : v.option.Network = "ws") :
    ∃ config : WebsocketConfig,
      (v.StreamConn env c md).2.filter Event.isHandshake = [] ∧
      (v.StreamConn env c md).2.head? = some (Event.StreamWebsocketConn c config) ∧
      (v.StreamConn env c md).2.filter Event.isWebsocket
        = [Event.StreamWebsocketConn c config] ∧
      (∀ ev ∈ (v.StreamConn env c md).2.tail, ev.isClientStreamConn = true) ∧
      config.Path = v.option.WSPath ∧
      config.TLS = v.option.TLS ∧
      (v.option.TLS = true →
        config.SkipCertVerify = v.option.SkipCertVerify ∧
        config.ServerName = v.option.ServerName) ∧
      (∀ kv ∈ v.option.WSHeaders,
        kv.2 ∈ Header.Values env.CanonicalMIMEHeaderKey config.Headers kv.1) := by
  refine ⟨v.wsOpts env, ?_, ?_, ?_, ?_, ?_, ?_, ?_, ?_⟩
  · rw [Vless.StreamConn_ws env v c md hNet]
    cases (env.StreamWebsocketConn c (v.wsOpts env)).2 <;> rfl
  · rw [Vless.StreamConn_ws env v c md hNet]
    cases (env.StreamWebsocketConn c (v.wsOpts env)).2 <;> rfl
  · rw [Vless.StreamConn_ws env v c md hNet]
    cases (env.StreamWebsocketConn c (v.wsOpts env)).2 <;> rfl
  · rw [Vless.StreamConn_ws env v c md hNet]
    cases (env.StreamWebsocketConn c (v.wsOpts env)).2 <;> simp [Event.isClientStreamConn]
  · unfold Vless.wsOpts
    by_cases hT : v.option.TLS = true <;> by_cases hH : v.option.WSHeaders.length ≠ 0 <;>
      simp [hT, hH]
  · unfold Vless.wsOpts
    by_cases hT : v.option.TLS = true <;> by_cases hH : v.option.WSHeaders.length ≠ 0 <;>
      simp [hT, hH]
  · intro hT
    unfold Vless.wsOpts
    by_cases hH : v.option.WSHeaders.length ≠ 0 <;> simp [hT, hH]
  · intro kv hkv
    have hH : v.option.WSHeaders.length ≠ 0 := by
      intro h0
      rw [List.length_eq_zero.mp h0] at hkv
      exact List.not_mem_nil _ hkv
    have hHeaders : (v.wsOpts env).Headers
        = v.option.WSHeaders.foldl
            (fun header kv => Header.Add env.CanonicalMIMEHeaderKey header kv.1 kv.2) [] := by
      unfold Vless.wsOpts
      by_cases hT : v.option.TLS = true <;> simp [hT, hH]
    rw [hHeaders]
    exact Header.foldl_Add_mem env.CanonicalMIMEHeaderKey v.option.WSHeaders [] kv hkv

/-- Witness of C7: a WebSocket adapter with TLS and two headers. -/
theorem Vless.StreamConn_ws_config_witness :
    wsAdapter.option.Network = "ws" ∧
    ∃ config : WebsocketConfig,
      (wsAdapter.StreamConn (stubEnv none none none none none none) (NetConn.socket 0)
          hostMetadata).2.filter Event.isHandshake = [] ∧
      (wsAdapter.StreamConn (stubEnv none none none none none none) (NetConn.socket 0)
          hostMetadata).2.head? = some (Event.StreamWebsocketConn (NetConn.socket 0) config) ∧
      (wsAdapter.StreamConn (stubEnv none none none none none none) (NetConn.socket 0)
          hostMetadata).2.filter Event.isWebsocket
        = [Event.StreamWebsocketConn (NetConn.socket 0) config] ∧
      (∀ ev ∈ (wsAdapter.StreamConn (stubEnv none none none none none none) (NetConn.socket 0)
          hostMetadata).2.tail, ev.isClientStreamConn = true) ∧
      config.Path = wsAdapter.option.WSPath ∧
      config.TLS = wsAdapter.option.TLS ∧
      (wsAdapter.option.TLS = true →
        config.SkipCertVerify = wsAdapter.option.SkipCertVerify ∧
        config.ServerName = wsAdapter.option.ServerName) ∧
      (∀ kv ∈ wsAdapter.option.WSHeaders,
        kv.2 ∈ Header.Values (stubEnv none none none none none none).CanonicalMIMEHeaderKey
          config.Headers kv.1) :=
  ⟨by decide, Vless.StreamConn_ws_config (stubEnv none none none none none none) wsAdapter
    (NetConn.socket 0) hostMetadata (by decide)⟩

/-- C8 as stated fails: the dial succeeds, the TLS handshake fails with "bad certificate",
and the error returned by `DialContext` has the message "bad certificate", which does not
contain the server address "example.com:443". -/
theorem Vless.DialContext_error_without_address :
    ∃ err : GoError,
      (tlsAdapter.DialContext (stubEnv none (some ⟨"bad certificate"⟩) none none none none)
        (Context.caller 0) hostMetadata).1.2 = some err ∧
      err.msg = "bad certificate" ∧
      tlsAdapter.addr = "example.com:443" ∧
      ¬ (tlsAdapter.addr.data <:+: err.msg.data) :=
  ⟨⟨"bad certificate"⟩, by decide, rfl, rfl, by decide⟩

/-- C8 as amended: when `DialContext` returns an error, either the dial failed with some
cause and the message is `<addr> connect error: <cause message>`, which contains the server
address and the cause's message, or the dial succeeded and the error is exactly the error
that `StreamConn` returned on the dialed socket, unchanged. -/
theorem Vless.DialContext_error_message (env : Env) (v : Vless) (ctx : Context)
    (md : Metadata) (err : GoError) (h : (v.DialContext env ctx md).1.2 = some err) :
    (∃ cause : GoError,
      (env.DialContext ctx "tcp" v.addr).2 = some cause ∧
      err.msg = v.addr ++ " connect error: " ++ cause.msg ∧
      v.addr.data <:+: err.msg.data ∧
      cause.msg.data <:+: err.msg.data) ∨
    ((env.DialContext ctx "tcp" v.addr).2 = none ∧
      (v.StreamConn env (env.DialContext ctx "tcp" v.addr).1 md).1.2 = some err) := by
  unfold Vless.DialContext at h
  cases hDial : (env.DialContext ctx "tcp" v.addr).2 with
  | some cause =>
    left
    simp only [hDial, Option.some.injEq] at h
    subst h
    refine ⟨cause, rfl, rfl, ?_, ?_⟩
    · refine ⟨[], (" connect error: " ++ cause.msg).data, ?_⟩
      simp [errorsNew, String.data_append]
    · refine ⟨(v.addr ++ " connect error: ").data, [], ?_⟩
      simp [errorsNew, String.data_append]
  | none =>
    right
    simp only [hDial] at h
    exact ⟨rfl, h⟩

/-- Witness of C8 as amended: a refused dial. -/
theorem Vless.DialContext_error_message_witness :
    (tlsAdapter.DialContext (stubEnv (some ⟨"connection refused"⟩) none none none none none)
        (Context.caller 0) hostMetadata).1.2
      = some ⟨"example.com:443 connect error: connection refused"⟩ ∧
    ((∃ cause : GoError,
      ((stubEnv (some ⟨"connection refused"⟩) none none none none none).DialContext
          (Context.caller 0) "tcp" tlsAdapter.addr).2 = some cause ∧
      (⟨"example.com:443 connect error: connection refused"⟩ : GoError).msg
        = tlsAdapter.addr ++ " connect error: " ++ cause.msg ∧
      tlsAdapter.addr.data
        <:+: (⟨"example.com:443 connect error: connection refused"⟩ : GoError).msg.data ∧
      cause.msg.data
        <:+: (⟨"example.com:443 connect error: connection refused"⟩ : GoError).msg.data) ∨
    (((stubEnv (some ⟨"connection refused"⟩) none none none none none).DialContext
          (Context.caller 0) "tcp" tlsAdapter.addr).2 = none ∧
      (tlsAdapter.StreamConn (stubEnv (some ⟨"connection refused"⟩) none none none none none)
        ((stubEnv (some ⟨"connection refused"⟩) none none none none none).DialContext
          (Context.caller 0) "tcp" tlsAdapter.addr).1 hostMetadata).1.2
        = some ⟨"example.com:443 connect error: connection refused"⟩)) :=
  ⟨by decide, Vless.DialContext_error_message _ tlsAdapter (Context.caller 0) hostMetadata
    ⟨"example.com:443 connect error: connection refused"⟩ (by decide)⟩

/-- C9: `NewVless` returns an error exactly when `vless.NewClient` rejects `option.UUID`;
then the adapter is nil and the error is the constructor's error; otherwise the error is
nil and the adapter has name `option.Name` and server address
`JoinHostPort(option.Server, Itoa(option.Port))`. The credential is checked at construction
only: `StreamConn`, `DialContext` and `DialUDP` do not depend on `NewClient`. -/
theorem NewVless_credential (env : Env) (option : VlessOption) :
    ((NewVless env option).2.isSome = (env.NewClient option.UUID).2.isSome) ∧
    (∀ e : GoError, (env.NewClient option.UUID).2 = some e →
      NewVless env option = (none, some e)) ∧
    ((env.NewClient option.UUID).2 = none →
      ∃ v : Vless, NewVless env option = (some v, none) ∧ v.name = option.Name ∧
        v.addr = env.JoinHostPort option.Server (env.Itoa option.Port)) ∧
    (∀ (check : String → Option Client × Option GoError) (v : Vless) (c : NetConn)
        (ctx : Context) (md : Metadata),
      v.StreamConn { env with NewClient := check } c md = v.StreamConn env c md ∧
      v.DialContext { env with NewClient := check } ctx md = v.DialContext env ctx md ∧
      v.DialUDP { env with NewClient := check } md = v.DialUDP env md) := by
  refine ⟨?_, ?_, ?_, ?_⟩
  · cases he : (env.NewClient option.UUID).2 <;> simp [NewVless, he]
  · intro e he
    simp [NewVless, he]
  · intro he
    simp [NewVless, he]
  · intro check v c ctx md
    exact ⟨rfl, rfl, rfl⟩

/-! ## Claim on `fetcher.go` -/

/-- C10, evaluated on the code: a fetcher built by `newFetcher` with a positive interval,
no local file, a readable vehicle and a parser that accepts the payload. `Initial` returns
with a nil error and starts the pull loop, yet `tryUpdateAt` is still nil, so the first
`interval - time.Since(*f.tryUpdateAt)` of the pull loop dereferences a nil pointer,
whatever the clock reads. -/
theorem fetcher.Initial_remote_leaves_tryUpdateAt_nil :
    (0 : Duration) < 10 * timeSecond ∧
    ((newFetcher "p" (10 * timeSecond) remoteVehicle (fun _ => (some 1, none)) none).Initial
      emptyFs).err = none ∧
    ((newFetcher "p" (10 * timeSecond) remoteVehicle (fun _ => (some 1, none)) none).Initial
      emptyFs).proxies = some 1 ∧
    ((newFetcher "p" (10 * timeSecond) remoteVehicle (fun _ => (some 1, none)) none).Initial
      emptyFs).pullLoop = true ∧
    ((newFetcher "p" (10 * timeSecond) remoteVehicle (fun _ => (some 1, none)) none).Initial
      emptyFs).f.tryUpdateAt = none ∧
    (∀ now : Time,
      ((newFetcher "p" (10 * timeSecond) remoteVehicle (fun _ => (some 1, none)) none).Initial
        emptyFs).f.pullLoop now = LoopHead.nilDereference) := by
  refine ⟨by decide, by decide, by decide, by decide, by decide, ?_⟩
  intro now
  have h : ((newFetcher "p" (10 * timeSecond) remoteVehicle (fun _ => (some 1, none))
      none).Initial emptyFs).f.tryUpdateAt = none := by decide
  have hc : ((newFetcher "p" (10 * timeSecond) remoteVehicle (fun _ => (some 1, none))
      none).Initial emptyFs).f.closed = 0 := by decide
  unfold fetcher.pullLoop
  rw [h, if_pos hc]

/-- The paths of `Initial` that start from an existing local file do set `tryUpdateAt`:
whenever `os.Stat` succeeds, the fetcher after the call holds the file's modification time
in both `tryUpdateAt` and `updatedAt`. -/
theorem fetcher.Initial_local_sets_tryUpdateAt (fs : FsEnv) (f : fetcher)
    (hStat : (fs.Stat f.vehicle.Path).2 = none) :
    (f.Initial fs).f.tryUpdateAt = some (fs.Stat f.vehicle.Path).1 := by
  unfold fetcher.Initial
  simp only [hStat]
  cases (fs.ReadFile f.vehicle.Path).2 with
  | some e => rfl
  | none =>
    simp only
    cases h1 : (f.parser (fs.ReadFile f.vehicle.Path).1).2 with
    | none =>
      simp only [fetcher.initialStore]
      split <;> rfl
    | some e =>
      simp only [if_neg (Bool.noConfusion : ¬ true = false)]
      cases f.vehicle.Read.2 with
      | some e => rfl
      | none =>
        simp only
        cases (f.parser f.vehicle.Read.1).2 with
        | some e => rfl
        | none =>
          simp only [fetcher.initialStore]
          split <;> rfl

end Clash
